import Mathlib

/-!
Verification of the titration-simulation core of the virtual chemistry lab
(React/TypeScript sources: VirtualLabApp.tsx and the Equipment component).

Modelling conventions, used throughout:

* JavaScript numbers are modelled as exact rationals wherever the code paths
  under scrutiny involve only ring operations and comparisons on values that
  are exactly representable; where a claim hinges on division by zero,
  Infinity or NaN, the type JSNum below models IEEE-754 special values
  explicitly (the concrete operations used by the code are exact on the
  inputs appearing in the claims, so no rounding is being idealised away).
* Math.log10 on finite positive arguments is transcendental; it is passed in
  as an abstract parameter (f : Rat -> Rat).  Every theorem below either
  quantifies over f or only exercises log10 on 0 and Infinity, where the
  IEEE result is exact and modelled directly.
* React state is modelled by explicit state passing.  A crucial point of
  fidelity: a callback created by useCallback reads the state *bindings of
  the render that created it* (a snapshot), while setX(v) writes the live
  state and setX(fun prev => ...) reads the live state.  Functions below
  that run inside long-lived closures therefore take a `snap` state (the
  values captured at creation time) and a `live` state separately.  A
  handler invoked from a quiescent UI has snap = live.
-/

namespace Titration

/-- JavaScript double arithmetic restricted to the values reachable in the
pH/molarity and colour computations: an exact rational, the two infinities,
or NaN.  (Negative zero never arises on the inputs considered.) -/
inductive JSNum where
  | fin (q : ℚ)
  | inf
  | ninf
  | nan
  deriving DecidableEq

namespace JSNum

/-- JS multiplication: NaN propagates; 0 * Infinity = NaN; signs as usual. -/
def jmul : JSNum → JSNum → JSNum
  | nan, _ => nan
  | _, nan => nan
  | fin a, fin b => fin (a * b)
  | fin a, inf => if a > 0 then inf else if a < 0 then ninf else nan
  | inf, fin a => if a > 0 then inf else if a < 0 then ninf else nan
  | fin a, ninf => if a > 0 then ninf else if a < 0 then inf else nan
  | ninf, fin a => if a > 0 then ninf else if a < 0 then inf else nan
  | inf, inf => inf
  | inf, ninf => ninf
  | ninf, inf => ninf
  | ninf, ninf => inf

/-- JS addition (needed for the colour accumulator). -/
def jadd : JSNum → JSNum → JSNum
  | nan, _ => nan
  | _, nan => nan
  | fin a, fin b => fin (a + b)
  | fin _, inf => inf
  | inf, fin _ => inf
  | fin _, ninf => ninf
  | ninf, fin _ => ninf
  | inf, inf => inf
  | ninf, ninf => ninf
  | inf, ninf => nan
  | ninf, inf => nan

/-- JS division: x/0 gives a signed infinity (0/0 gives NaN). -/
def jdiv : JSNum → JSNum → JSNum
  | nan, _ => nan
  | _, nan => nan
  | fin a, fin b =>
      if b ≠ 0 then fin (a / b)
      else if a > 0 then inf else if a < 0 then ninf else nan
  | fin _, inf => fin 0
  | fin _, ninf => fin 0
  | inf, fin b => if b ≥ 0 then inf else ninf
  | ninf, fin b => if b ≥ 0 then ninf else inf
  | inf, inf => nan
  | inf, ninf => nan
  | ninf, inf => nan
  | ninf, ninf => nan

/-- JS unary minus. -/
def jneg : JSNum → JSNum
  | nan => nan
  | fin a => fin (-a)
  | inf => ninf
  | ninf => inf

/-- JS subtraction. -/
def jsub : JSNum → JSNum → JSNum
  | nan, _ => nan
  | _, nan => nan
  | fin a, fin b => fin (a - b)
  | fin _, inf => ninf
  | fin _, ninf => inf
  | inf, fin _ => inf
  | ninf, fin _ => ninf
  | inf, inf => nan
  | ninf, ninf => nan
  | inf, ninf => inf
  | ninf, inf => ninf

/-- JS Math.min: NaN-propagating minimum. -/
def jmin : JSNum → JSNum → JSNum
  | nan, _ => nan
  | _, nan => nan
  | fin a, fin b => fin (min a b)
  | fin a, inf => fin a
  | inf, fin a => fin a
  | fin _, ninf => ninf
  | ninf, fin _ => ninf
  | inf, inf => inf
  | ninf, ninf => ninf
  | inf, ninf => ninf
  | ninf, inf => ninf

/-- JS Math.max: NaN-propagating maximum. -/
def jmax : JSNum → JSNum → JSNum
  | nan, _ => nan
  | _, nan => nan
  | fin a, fin b => fin (max a b)
  | fin a, ninf => fin a
  | ninf, fin a => fin a
  | fin _, inf => inf
  | inf, fin _ => inf
  | inf, inf => inf
  | ninf, ninf => ninf
  | inf, ninf => inf
  | ninf, inf => inf

/-- JS Math.log10, with the transcendental finite-positive case supplied by
the abstract parameter f: log10(+Infinity) = +Infinity, log10(0) = -Infinity,
log10 of a negative number (or NaN) is NaN. -/
def jlog10 (f : ℚ → ℚ) : JSNum → JSNum
  | nan => nan
  | inf => inf
  | ninf => nan
  | fin q => if q > 0 then fin (f q) else if q = 0 then ninf else nan

/-- True exactly on finite values. -/
def isFin : JSNum → Bool
  | fin _ => true
  | _ => false

end JSNum

/-- Result record of calculateChemicalProperties. -/
structure CalcResult where
  molarity : JSNum
  moles : JSNum
  ph : JSNum
  deriving DecidableEq

/-- The `concentrations[chemical.id] || 0` lookup table
(hcl 0.1, naoh 0.1, phenol 0, anything else 0). -/
def concentrationOf (id : String) : ℚ :=
  if id = "hcl" then 1/10 else if id = "naoh" then 1/10 else 0

/-- Shallow embedding of calculateChemicalProperties(chemical, amount,
totalVolume) from VirtualLabApp.tsx (lines 805-834).  The chemical is
identified by its id string; f supplies Math.log10 on finite positive
arguments.  The code computes, with no guard on totalVolume = 0:
molarity * (amount / totalVolume), moles = molarity * amount/1000, and a pH
of -log10(effective molarity) for hcl, 14 - (-log10 ...) for naoh, 7
otherwise, finally clamped by Math.max(0, Math.min(14, ph)). -/
def calculateChemicalProperties (f : ℚ → ℚ) (id : String)
    (amount totalVolume : ℚ) : CalcResult :=
  let molarity : ℚ := concentrationOf id
  let amountRatioJS : JSNum := JSNum.jdiv (JSNum.fin amount) (JSNum.fin totalVolume)
  let effective : JSNum := JSNum.jmul (JSNum.fin molarity) amountRatioJS
  let ph : JSNum :=
    if id = "hcl" then
      JSNum.jneg (JSNum.jlog10 f effective)
    else if id = "naoh" then
      JSNum.jsub (JSNum.fin 14) (JSNum.jneg (JSNum.jlog10 f effective))
    else JSNum.fin 7
  { molarity := effective
    moles := JSNum.fin (molarity * (amount / 1000))
    ph := JSNum.jmax (JSNum.fin 0) (JSNum.jmin (JSNum.fin 14) ph) }

/-! Mixture model: the Equipment component's getMixedColor and
getSolutionHeight (src/unnamed/part_000, lines 138-254). -/

/-- ChemicalQuantity entry held by an equipment instance (the objects pushed
onto pos.chemicals in VirtualLabApp.tsx). -/
structure ChemQ where
  id : String
  name : String
  color : String
  amount : ℚ
  concentration : String
  deriving DecidableEq

/-- Value of one hexadecimal digit, when the character is one. -/
def hexDigitVal (c : Char) : Option ℕ :=
  if '0' ≤ c ∧ c ≤ '9' then some (c.toNat - '0'.toNat)
  else if 'a' ≤ c ∧ c ≤ 'f' then some (c.toNat - 'a'.toNat + 10)
  else if 'A' ≤ c ∧ c ≤ 'F' then some (c.toNat - 'A'.toNat + 10)
  else none

/-- color.replace("#", ""): removes the first '#' occurrence. -/
def stripHash : List Char → List Char
  | [] => []
  | c :: cs => if c = '#' then cs else c :: stripHash cs

/-- parseInt(s, 16) on a string of at most two characters: parses the
longest prefix of hexadecimal digits, NaN when that prefix is empty. -/
def parseIntHex2 : List Char → JSNum
  | [] => JSNum.nan
  | [c] =>
    match hexDigitVal c with
    | some d => JSNum.fin d
    | none => JSNum.nan
  | c1 :: c2 :: _ =>
    match hexDigitVal c1, hexDigitVal c2 with
    | some d1, some d2 => JSNum.fin (16 * d1 + d2)
    | some d1, none => JSNum.fin d1
    | none, _ => JSNum.nan

/-- parseInt(hex.substr(i, 2), 16) where hex = color.replace("#", ""). -/
def colorChannel (color : String) (i : ℕ) : JSNum :=
  parseIntHex2 (((stripHash color.data).drop i).take 2)

/-- JS Math.round: round half toward positive infinity. -/
def jround (q : ℚ) : ℤ := ⌊q + 1/2⌋

/-- Template-literal rendering of a channel after Math.round (NaN and the
infinities stringify as in JS). -/
def channelStr : JSNum → String
  | JSNum.fin q => toString (jround q)
  | JSNum.inf => "Infinity"
  | JSNum.ninf => "-Infinity"
  | JSNum.nan => "NaN"

/-- Assembled rgb template string for already-integral channels. -/
def rgbString (r g b : ℤ) : String :=
  "rgb(" ++ toString r ++ ", " ++ toString g ++ ", " ++ toString b ++ ")"

/-- The smooth-easing polynomial p * p * (3 - 2p) applied to both colour
stages of the hcl+naoh+phenol branch. -/
def smoothEase (p : ℚ) : ℚ := p * p * (3 - 2 * p)

/-- startColor.channel + (endColor.channel - startColor.channel) * eased,
rounded with Math.round. -/
def lerpChannel (a b : ℤ) (e : ℚ) : ℤ :=
  jround ((a : ℚ) + ((b : ℚ) - (a : ℚ)) * e)

/-- Accumulator (r, g, b, totalAmount) of the chemicals.forEach loop in
getMixedColor's default branch. -/
structure MixAcc where
  r : JSNum
  g : JSNum
  b : JSNum
  totalAmount : ℚ
  deriving DecidableEq

/-- One forEach step: r += rVal * amount (and likewise g, b),
totalAmount += amount. -/
def mixStep (acc : MixAcc) (c : ChemQ) : MixAcc :=
  { r := JSNum.jadd acc.r (JSNum.jmul (colorChannel c.color 0) (JSNum.fin c.amount))
    g := JSNum.jadd acc.g (JSNum.jmul (colorChannel c.color 2) (JSNum.fin c.amount))
    b := JSNum.jadd acc.b (JSNum.jmul (colorChannel c.color 4) (JSNum.fin c.amount))
    totalAmount := acc.totalAmount + c.amount }

/-- The whole forEach accumulation, starting from r = g = b = 0,
totalAmount = 0. -/
def mixFold (l : List ChemQ) : MixAcc :=
  l.foldl mixStep { r := JSNum.fin 0, g := JSNum.fin 0, b := JSNum.fin 0, totalAmount := 0 }

/-- Shallow embedding of getMixedColor (Equipment component, lines 138-246):
transparent when empty, the chemical's own colour when exactly one entry is
present, then the fixed priority table of id-set special cases (with the
titrationColorProgress-driven two-stage pink interpolation for
hcl+naoh+phenol), and finally the amount-weighted RGB average.  The .sort()
the source applies to the id list only normalises order and is irrelevant to
the membership tests that follow, so it is not replayed. -/
def getMixedColor (chemicals : List ChemQ) (titrationColorProgress : ℚ) : String :=
  match chemicals with
  | [] => "transparent"
  | [c] => c.color
  | _ :: _ :: _ =>
    let ids := chemicals.map ChemQ.id
    if "hcl" ∈ ids ∧ "naoh" ∈ ids then
      if "phenol" ∈ ids then
        if titrationColorProgress > 0 then
          if titrationColorProgress ≤ 1 then
            let e := smoothEase titrationColorProgress
            rgbString (lerpChannel 255 255 e) (lerpChannel 220 182 e)
              (lerpChannel 230 193 e)
          else
            let np := min ((titrationColorProgress - 1) / 2) 1
            let e := smoothEase np
            rgbString (lerpChannel 255 199 e) (lerpChannel 182 21 e)
              (lerpChannel 193 133 e)
        else "#FFB6C1"
      else "#E8F5E8"
    else if "phenol" ∈ ids ∧ "naoh" ∈ ids then "#FF69B4"
    else if "hcl" ∈ ids ∧ "phenol" ∈ ids ∧ "naoh" ∉ ids then "#ADD8E6"
    else
      let acc := mixFold chemicals
      if acc.totalAmount = 0 then "transparent"
      else
        "rgb(" ++ channelStr (JSNum.jdiv acc.r (JSNum.fin acc.totalAmount)) ++ ", "
          ++ channelStr (JSNum.jdiv acc.g (JSNum.fin acc.totalAmount)) ++ ", "
          ++ channelStr (JSNum.jdiv acc.b (JSNum.fin acc.totalAmount)) ++ ")"

/-- Total volume of an equipment's contents: chemicals.reduce((sum, c) =>
sum + c.amount, 0). -/
def totalVolume (chemicals : List ChemQ) : ℚ := (chemicals.map ChemQ.amount).sum

/-- getSolutionHeight (Equipment component, lines 248-254):
Math.min(85, totalVolume / 100 * 85). -/
def getSolutionHeight (chemicals : List ChemQ) : ℚ :=
  min 85 (totalVolume chemicals / 100 * 85)

/-- Finite part of a JS number (0 on NaN and infinities; only applied under
a finiteness hypothesis). -/
def finChannel : JSNum → ℚ
  | JSNum.fin q => q
  | _ => 0

/-- Amount-weighted sum of one parsed colour channel over a chemical list. -/
def weightedChannelSum (chemicals : List ChemQ) (i : ℕ) : ℚ :=
  (chemicals.map (fun c => finChannel (colorChannel c.color i) * c.amount)).sum

/-- Stated from the spec's words for comparison with getMixedColor's
fallback branch: the "amount-weighted RGB average of all present chemicals",
each channel rounded to an integer. -/
def weightedAverageColor (chemicals : List ChemQ) : String :=
  rgbString (jround (weightedChannelSum chemicals 0 / totalVolume chemicals))
    (jround (weightedChannelSum chemicals 2 / totalVolume chemicals))
    (jround (weightedChannelSum chemicals 4 / totalVolume chemicals))

/-! Simulation state machine (VirtualLabApp.tsx).  React state is passed
explicitly; a callback invoked from a quiescent UI sees snapshot = live
state, while closures living across renders (the animation frames and the
settle timeout) keep reading the snapshot taken when handleStartTitration
was created. -/

/-- Kinds of entries appended to the results log; only the discriminating
content of the Result records matters to the claims. -/
inductive ResultKind where
  | reaction
  | titrationStart
  | cycleComplete
  | cycleOverTitration
  deriving DecidableEq

/-- EquipmentPosition: an equipment instance placed on the workbench. -/
structure EquipPos where
  id : String
  x : ℚ
  y : ℚ
  chemicals : List ChemQ
  deriving DecidableEq

/-- The VirtualLabApp state variables the claims speak about.  acidBase is
experimentTitle.includes("Acid-Base"); toasts counts setToastMessage calls
other than step-completion notifications; notifications is the ledger of
step-completion notifications (by step number); activeLoops counts the
animateColor requestAnimationFrame chains ever started (the source never
cancels one).  The measurements record, the undo history, the guided-step
cursor and the drop sprites are presentational and not part of any claim;
the pH/molarity arithmetic feeding measurements is modelled separately by
calculateChemicalProperties. -/
structure LabState where
  acidBase : Bool
  equipment : List EquipPos
  isTitrating : Bool
  isStirring : Bool
  stirrerActive : Bool
  titrationColorProgress : ℚ
  cumulativeVolume : ℚ
  cumulativeColorIntensity : ℚ
  completedSteps : Finset ℕ
  hasCalculatedResult : Bool
  showResultsPanel : Bool
  results : List ResultKind
  notifications : List ℕ
  toasts : ℕ
  activeLoops : ℕ
  deriving DecidableEq

/-- markStepCompleted (VirtualLabApp.tsx lines 140-179): guarded by the
experiment title and by the completedSteps binding captured by the callback
instance (snap); the setCompletedSteps functional update and the
notification toast apply to the live state.  The completionPercentage
recomputation only feeds the progress callbacks and is not state. -/
def markStepCompleted (snap : LabState) (stepNumber : ℕ) (live : LabState) : LabState :=
  if snap.acidBase = true ∧ stepNumber ∉ snap.completedSteps then
    { live with completedSteps := insert stepNumber live.completedSteps
                notifications := live.notifications ++ [stepNumber] }
  else live

/-- equipmentPositions.find(pos => pos.id === id). -/
def findEquip (s : LabState) (id : String) : Option EquipPos :=
  s.equipment.find? (fun pos => pos.id == id)

/-- Clamping of a drop position to the workbench bounds (lines 615-622). -/
def clampPos (x y : ℚ) : ℚ × ℚ := (max 60 (min 800 x), max 60 (min 450 y))

/-- handleEquipmentDrop (lines 603-803) restricted to the state the claims
mention: an existing instance is moved, a new instance is appended with an
empty chemical list, and newly placing the burette in the Acid-Base
experiment marks step 1.  The auto-snap formation and overlap-avoidance
solver (lines 624-766) only perturbs the final x/y coordinates and is
elided here, as is the undo history: no claim depends on either. -/
def handleEquipmentDrop (id : String) (x y : ℚ) (s : LabState) : LabState :=
  let p := clampPos x y
  if s.equipment.any (fun pos => pos.id == id) then
    { s with equipment := s.equipment.map (fun pos =>
        if pos.id == id then { pos with x := p.1, y := p.2 } else pos) }
  else
    let s1 := if s.acidBase = true ∧ id = "burette" then markStepCompleted s 1 s else s
    { s1 with equipment := s1.equipment ++ [⟨id, p.1, p.2, []⟩] }

/-- The Acid-Base Titration entries of experimentChemicals (lines 240-266),
already specialised to the dropped amount as handleChemicalDrop does when it
builds the new ChemicalQuantity entry. -/
def experimentChemical (id : String) (amount : ℚ) : Option ChemQ :=
  if id = "naoh" then some ⟨"naoh", "Sodium Hydroxide", "#8B5A9B", amount, "0.1 M"⟩
  else if id = "hcl" then some ⟨"hcl", "Hydrochloric Acid", "#FFE135", amount, "0.1 M"⟩
  else if id = "phenol" then some ⟨"phenol", "Phenolphthalein", "#FFB6C1", amount, "Indicator"⟩
  else none

/-- Append a ChemicalQuantity entry to one equipment instance's list. -/
def appendChem (eid : String) (c : ChemQ) (s : LabState) : LabState :=
  { s with equipment := s.equipment.map (fun pos =>
      if pos.id == eid then { pos with chemicals := pos.chemicals ++ [c] } else pos) }

/-- handleReaction (lines 1026-1126) restricted to the modelled state: when
both hcl and naoh are present a reaction record is appended; for the
Acid-Base experiment the first such reaction sets hasCalculatedResult and
marks step 6 (the guard reads the snapshot); a conical-flask reaction also
shows a toast. -/
def handleReaction (snap : LabState) (chemicals : List ChemQ) (equipmentId : String)
    (live : LabState) : LabState :=
  let hasAcid := chemicals.any (fun c => c.id == "hcl")
  let hasBase := chemicals.any (fun c => c.id == "naoh")
  if hasAcid = true ∧ hasBase = true then
    let l1 := { live with results := live.results ++ [ResultKind.reaction] }
    let l2 :=
      if snap.acidBase = true ∧ snap.hasCalculatedResult = false then
        markStepCompleted snap 6 { l1 with hasCalculatedResult := true }
      else l1
    if equipmentId = "conical_flask" then { l2 with toasts := l2.toasts + 1 } else l2
  else live

/-- handleChemicalDrop (lines 840-1024) for the Acid-Base experiment (the
other experiments use different chemical tables and no claim exercises
them): the three special placements (phenol into the conical flask, naoh and
phenol into the burette) toast, possibly mark a step and append; the generic
path appends to the target equipment, toasts, marks step 2 for hcl into the
conical flask, and runs handleReaction once at least two chemicals are
present.  The measurements update is outside the modelled state. -/
def handleChemicalDrop (chemicalId equipmentId : String) (amount : ℚ)
    (s : LabState) : LabState :=
  if s.acidBase = false then s else
  match experimentChemical chemicalId amount with
  | none => s
  | some chem =>
    if chemicalId = "phenol" ∧ equipmentId = "conical_flask" then
      appendChem "conical_flask" chem (markStepCompleted s 3 { s with toasts := s.toasts + 1 })
    else if chemicalId = "naoh" ∧ equipmentId = "burette" then
      appendChem "burette" chem (markStepCompleted s 1 { s with toasts := s.toasts + 1 })
    else if chemicalId = "phenol" ∧ equipmentId = "burette" then
      appendChem "burette" chem { s with toasts := s.toasts + 1 }
    else
      match findEquip s equipmentId with
      | none => s
      | some pos =>
        let newChems := pos.chemicals ++ [chem]
        let l1 := { s with toasts := s.toasts + 1 }
        let l2 :=
          if chemicalId = "hcl" ∧ equipmentId = "conical_flask" then
            markStepCompleted s 2 l1
          else l1
        let l3 :=
          if 2 ≤ newChems.length then handleReaction s newChems equipmentId l2 else l2
        appendChem equipmentId chem l3

/-- Guard data of handleStartTitration: both apparatus present and naoh
loaded in the burette. -/
def startOk (s : LabState) : Bool :=
  match findEquip s "burette", findEquip s "conical_flask" with
  | some burette, some _ => burette.chemicals.any (fun c => c.id == "naoh")
  | _, _ => false

/-- handleStartTitration (lines 1137-1390).  The source contains no
isTitrating re-entrancy guard: after the two apparatus/chemical guards it
always starts a further animateColor loop (counted by activeLoops).  The
dropwise-emission interval (startDropwiseAnimation, lines 1437-1503) checks
the stale captured isTitrating on its first tick and clears itself before
mutating anything, so it touches none of the modelled state and is not
replayed. -/
def handleStartTitration (s : LabState) : LabState :=
  match findEquip s "burette", findEquip s "conical_flask" with
  | none, _ => { s with toasts := s.toasts + 1 }
  | some _, none => { s with toasts := s.toasts + 1 }
  | some burette, some flask =>
    if burette.chemicals.any (fun c => c.id == "naoh") = false then
      { s with toasts := s.toasts + 1 }
    else
      let s1 := { s with isTitrating := true, showResultsPanel := true }
      let s2 := markStepCompleted s 4 s1
      let s3 :=
        match findEquip s "magnetic_stirrer" with
        | some _ =>
          if s.isStirring = false then
            { s2 with isStirring := true, stirrerActive := true, toasts := s2.toasts + 1 }
          else { s2 with toasts := s2.toasts + 1 }
        | none => { s2 with toasts := s2.toasts + 1 }
      let s4 :=
        if flask.chemicals.any (fun c => c.id == "naoh") = false then
          appendChem "conical_flask" ⟨"naoh", "Sodium Hydroxide", "transparent", 1, "0.1 M"⟩ s3
        else s3
      let s5 := { s4 with results := s4.results ++ [ResultKind.titrationStart],
                          toasts := s4.toasts + 1 }
      { s5 with titrationColorProgress := 0, activeLoops := s5.activeLoops + 1 }

/-- handleStopTitration (lines 1392-1405): clears the Titrating flag and
stops stirring when active; the running animation frames are not cancelled
by the source. -/
def handleStopTitration (s : LabState) : LabState :=
  if s.isStirring = true then
    { s with isTitrating := false, isStirring := false, stirrerActive := false,
             toasts := s.toasts + 1 }
  else { s with isTitrating := false, toasts := s.toasts + 1 }

/-- The Start/Stop Titration button (lines 1736-1750): while Titrating a
click dispatches handleStopTitration, otherwise handleStartTitration. -/
def titrationButton (s : LabState) : LabState :=
  if s.isTitrating = true then handleStopTitration s else handleStartTitration s

/-- The cubic ease-in-out of the titration animation (lines 1259-1262). -/
def easeInOut (p : ℚ) : ℚ :=
  if p < 1/2 then 2 * p * p else 1 - (-2 * p + 2) ^ 3 / 2

/-- The per-chemical part of the frame's flask update: the naoh entry's
amount is swept to 1.0 + progress * 2.0 (line 1280). -/
def frameChem (p : ℚ) (c : ChemQ) : ChemQ :=
  if c.id == "naoh" then { c with amount := 1 + p * 2 } else c

/-- The per-equipment part of the frame's update: only the conical flask's
chemicals are touched (lines 1281-1299). -/
def framePos (p : ℚ) (pos : EquipPos) : EquipPos :=
  if pos.id == "conical_flask" then { pos with chemicals := pos.chemicals.map (frameChem p) }
  else pos

/-- One animateColor frame at clamped progress p (lines 1254-1307).  Plain
state reads inside the closure see snap, the state captured when
handleStartTitration was created; the set* calls write the live state.  The
measurements sweep (volume snap.cumulativeVolume + p*20, pH 6.5 + 2.8p,
molarity 0.1 - 0.05p) only writes the unmodelled measurements record. -/
def animateFrame (snap : LabState) (p : ℚ) (live : LabState) : LabState :=
  let eased := easeInOut p
  let l1 := { live with titrationColorProgress := snap.cumulativeColorIntensity + eased }
  let l2 := { l1 with equipment := l1.equipment.map (framePos p) }
  if eased ≥ 3/10 ∧ 5 ∉ snap.completedSteps then markStepCompleted snap 5 l2 else l2

/-- The settle timeout scheduled when a frame reaches progress 1 (lines
1308-1371).  The guard reads the isTitrating binding captured when
handleStartTitration was created; the commit writes the cycle's final
cumulative values (passed in from the final frame), flips the state back to
Idle and appends the cycle record, whose over-titration flag also reads the
captured pre-cycle cumulativeColorIntensity. -/
def cycleSettle (snap : LabState) (currentVolume currentColorIntensity : ℚ)
    (live : LabState) : LabState :=
  if snap.isTitrating = true then
    { live with
        cumulativeVolume := currentVolume
        cumulativeColorIntensity := currentColorIntensity
        isTitrating := false
        results := live.results ++
          [if snap.cumulativeColorIntensity > 1 then ResultKind.cycleOverTitration
           else ResultKind.cycleComplete]
        toasts := live.toasts + 1 }
  else live

/-- One complete user-driven titration cycle: the Start click followed by
the animation frames up to clamped progress 1 and the settle timeout, all
sharing the snapshot taken at the click.  Intermediate frames only write
titrationColorProgress, the flask's naoh amount and the unmodelled
measurements with values the final frame writes again, and (owing to the
stale completedSteps snapshot) re-fire the step-5 notification fired at the
first frame past the 0.3 threshold; every modelled field is therefore
determined by the final frame, up to repetitions of step 5 in the
notifications ledger, which no claim counts. -/
def runFullCycle (s : LabState) : LabState :=
  if startOk s = true then
    cycleSettle s (s.cumulativeVolume + 1 * 20) (s.cumulativeColorIntensity + easeInOut 1)
      (animateFrame s 1 (handleStartTitration s))
  else handleStartTitration s

/-- The Controls onReset handler (lines 1666-1715): restores every modelled
field to its initial value (equipment cleared, cumulativeVolume 5.0,
cumulativeColorIntensity 0, completed-step set emptied, flags cleared) and
shows a confirmation toast.  The notifications ledger records already-shown
notifications and has no state counterpart in the source; running animation
loops are not cancelled by the source, so activeLoops is kept. -/
def resetExperiment (s : LabState) : LabState :=
  { acidBase := s.acidBase
    equipment := []
    isTitrating := false
    isStirring := false
    stirrerActive := false
    titrationColorProgress := 0
    cumulativeVolume := 5
    cumulativeColorIntensity := 0
    completedSteps := ∅
    hasCalculatedResult := false
    showResultsPanel := false
    results := []
    notifications := s.notifications
    toasts := s.toasts + 1
    activeLoops := s.activeLoops }

/-- The modelled entry points of the simulation. -/
inductive LabOp where
  | equipmentDrop (id : String) (x y : ℚ)
  | chemicalDrop (chemicalId equipmentId : String) (amount : ℚ)
  | startTitration
  | stopTitration
  | button
  | fullCycle
  | markStep (n : ℕ)
  | reset
  deriving DecidableEq

/-- Dispatch of one operation on the live state; handlers invoked from a
quiescent UI see snapshot = live. -/
def applyOp : LabOp → LabState → LabState
  | LabOp.equipmentDrop id x y, s => handleEquipmentDrop id x y s
  | LabOp.chemicalDrop cid eid a, s => handleChemicalDrop cid eid a s
  | LabOp.startTitration, s => handleStartTitration s
  | LabOp.stopTitration, s => handleStopTitration s
  | LabOp.button, s => titrationButton s
  | LabOp.fullCycle, s => runFullCycle s
  | LabOp.markStep n, s => markStepCompleted s n s
  | LabOp.reset, s => resetExperiment s

/-- Burette loaded with NaOH, as after dropping the reagent on it. -/
def buretteLoaded : EquipPos :=
  ⟨"burette", 450, 120, [⟨"naoh", "Sodium Hydroxide", "#8B5A9B", 50, "0.1 M"⟩]⟩

/-- Conical flask holding the HCl sample and the indicator. -/
def flaskLoaded : EquipPos :=
  ⟨"conical_flask", 450, 280,
    [⟨"hcl", "Hydrochloric Acid", "#FFE135", 25, "0.1 M"⟩,
     ⟨"phenol", "Phenolphthalein", "#FFB6C1", 10, "Indicator"⟩]⟩

/-- Ready-to-titrate idle state of the Acid-Base experiment. -/
def readyState : LabState :=
  { acidBase := true, equipment := [buretteLoaded, flaskLoaded], isTitrating := false,
    isStirring := false, stirrerActive := false, titrationColorProgress := 0,
    cumulativeVolume := 5, cumulativeColorIntensity := 0, completedSteps := ∅,
    hasCalculatedResult := false, showResultsPanel := false, results := [],
    notifications := [], toasts := 0, activeLoops := 0 }

/-- A workbench missing the conical flask. -/
def missingFlaskState : LabState := { readyState with equipment := [buretteLoaded] }

/-- A black chemical, amount 10, with an id outside every special-case
reaction table entry. -/
def inkChem : ChemQ := ⟨"ink", "Black Ink", "#000000", 10, "pure"⟩

/-- A white chemical, amount 10, likewise outside the special cases. -/
def milkChem : ChemQ := ⟨"milk", "White Milk", "#FFFFFF", 10, "pure"⟩

/-- The same workbench mid-titration, with one animation loop running. -/
def titratingState : LabState :=
  { readyState with isTitrating := true, activeLoops := 1 }

/-! Helper lemmas about the JS-number model. -/

/-- A finite JS number is the fin of its finite part. -/
lemma isFin_eq_fin (x : JSNum) (h : x.isFin = true) : x = JSNum.fin (finChannel x) := by
  cases x <;> simp_all [JSNum.isFin, finChannel]

/-- Clamping a finite pH with Math.max/Math.min is the rational clamp. -/
lemma clamp_fin (x : ℚ) :
    JSNum.jmax (JSNum.fin 0) (JSNum.jmin (JSNum.fin 14) (JSNum.fin x)) =
      JSNum.fin (max 0 (min 14 x)) := rfl

/-- The rational clamp lands in the closed interval from 0 to 14. -/
lemma clamp_bounds (x : ℚ) : 0 ≤ max 0 (min 14 x) ∧ max 0 (min 14 x) ≤ 14 :=
  ⟨le_max_left _ _, max_le (by norm_num) (min_le_left _ _)⟩

/-- The forEach accumulation of getMixedColor's default branch, started from
finite channel accumulators, stays finite and computes the amount-weighted
channel sums and the total amount, provided every colour parses to finite
channel values. -/
lemma foldl_mixStep_fin (l : List ChemQ)
    (h : ∀ c ∈ l, (colorChannel c.color 0).isFin = true ∧
      (colorChannel c.color 2).isFin = true ∧ (colorChannel c.color 4).isFin = true)
    (a b c0 t : ℚ) :
    l.foldl mixStep ⟨JSNum.fin a, JSNum.fin b, JSNum.fin c0, t⟩ =
      ⟨JSNum.fin (a + weightedChannelSum l 0), JSNum.fin (b + weightedChannelSum l 2),
        JSNum.fin (c0 + weightedChannelSum l 4), t + totalVolume l⟩ := by
  induction l generalizing a b c0 t with
  | nil => simp [weightedChannelSum, totalVolume]
  | cons x xs ih =>
    obtain ⟨h1, h2, h3⟩ := h x (List.mem_cons_self x xs)
    have hxs : ∀ c ∈ xs, (colorChannel c.color 0).isFin = true ∧
        (colorChannel c.color 2).isFin = true ∧ (colorChannel c.color 4).isFin = true :=
      fun c hc => h c (List.mem_cons_of_mem x hc)
    obtain ⟨q1, e1⟩ : ∃ q, colorChannel x.color 0 = JSNum.fin q :=
      ⟨finChannel _, isFin_eq_fin _ h1⟩
    obtain ⟨q2, e2⟩ : ∃ q, colorChannel x.color 2 = JSNum.fin q :=
      ⟨finChannel _, isFin_eq_fin _ h2⟩
    obtain ⟨q3, e3⟩ : ∃ q, colorChannel x.color 4 = JSNum.fin q :=
      ⟨finChannel _, isFin_eq_fin _ h3⟩
    simp only [List.foldl_cons, mixStep, e1, e2, e3, JSNum.jmul, JSNum.jadd]
    rw [ih hxs]
    have f1 : finChannel (colorChannel x.color 0) = q1 := by rw [e1]; rfl
    have f2 : finChannel (colorChannel x.color 2) = q2 := by rw [e2]; rfl
    have f3 : finChannel (colorChannel x.color 4) = q3 := by rw [e3]; rfl
    simp only [weightedChannelSum, totalVolume, List.map_cons, List.sum_cons, MixAcc.mk.injEq,
      JSNum.fin.injEq, f1, f2, f3]
    refine ⟨by ring, by ring, by ring, by ring⟩

/-! Field lemmas for the state machine. -/

lemma markStep_equipment (snap : LabState) (n : ℕ) (live : LabState) :
    (markStepCompleted snap n live).equipment = live.equipment := by
  unfold markStepCompleted; split <;> rfl

lemma markStep_isTitrating (snap : LabState) (n : ℕ) (live : LabState) :
    (markStepCompleted snap n live).isTitrating = live.isTitrating := by
  unfold markStepCompleted; split <;> rfl

lemma markStep_cumulativeVolume (snap : LabState) (n : ℕ) (live : LabState) :
    (markStepCompleted snap n live).cumulativeVolume = live.cumulativeVolume := by
  unfold markStepCompleted; split <;> rfl

lemma markStep_cumulativeColorIntensity (snap : LabState) (n : ℕ) (live : LabState) :
    (markStepCompleted snap n live).cumulativeColorIntensity =
      live.cumulativeColorIntensity := by
  unfold markStepCompleted; split <;> rfl

lemma markStep_results (snap : LabState) (n : ℕ) (live : LabState) :
    (markStepCompleted snap n live).results = live.results := by
  unfold markStepCompleted; split <;> rfl

lemma markStep_activeLoops (snap : LabState) (n : ℕ) (live : LabState) :
    (markStepCompleted snap n live).activeLoops = live.activeLoops := by
  unfold markStepCompleted; split <;> rfl

lemma markStep_toasts (snap : LabState) (n : ℕ) (live : LabState) :
    (markStepCompleted snap n live).toasts = live.toasts := by
  unfold markStepCompleted; split <;> rfl

lemma markStep_subset (snap : LabState) (n : ℕ) (live : LabState) :
    live.completedSteps ⊆ (markStepCompleted snap n live).completedSteps := by
  unfold markStepCompleted; split
  · exact Finset.subset_insert _ _
  · exact Finset.Subset.refl _

/-- Transitivity-packaged form of markStep_subset, convenient for goals
whose right-hand side is a record-update chain around markStepCompleted. -/
lemma subset_markStep (snap : LabState) (n : ℕ) (live : LabState) (t : Finset ℕ)
    (h : t ⊆ live.completedSteps) : t ⊆ (markStepCompleted snap n live).completedSteps :=
  Finset.Subset.trans h (markStep_subset snap n live)

lemma appendChem_completedSteps (eid : String) (c : ChemQ) (s : LabState) :
    (appendChem eid c s).completedSteps = s.completedSteps := rfl

lemma appendChem_results (eid : String) (c : ChemQ) (s : LabState) :
    (appendChem eid c s).results = s.results := rfl

lemma appendChem_cumulativeVolume (eid : String) (c : ChemQ) (s : LabState) :
    (appendChem eid c s).cumulativeVolume = s.cumulativeVolume := rfl

lemma appendChem_cumulativeColorIntensity (eid : String) (c : ChemQ) (s : LabState) :
    (appendChem eid c s).cumulativeColorIntensity = s.cumulativeColorIntensity := rfl

lemma appendChem_isTitrating (eid : String) (c : ChemQ) (s : LabState) :
    (appendChem eid c s).isTitrating = s.isTitrating := rfl

lemma appendChem_activeLoops (eid : String) (c : ChemQ) (s : LabState) :
    (appendChem eid c s).activeLoops = s.activeLoops := rfl

lemma stop_equipment (s : LabState) :
    (handleStopTitration s).equipment = s.equipment := by
  unfold handleStopTitration; split <;> rfl

lemma stop_isTitrating (s : LabState) :
    (handleStopTitration s).isTitrating = false := by
  unfold handleStopTitration; split <;> rfl

lemma stop_cumulativeVolume (s : LabState) :
    (handleStopTitration s).cumulativeVolume = s.cumulativeVolume := by
  unfold handleStopTitration; split <;> rfl

lemma stop_cumulativeColorIntensity (s : LabState) :
    (handleStopTitration s).cumulativeColorIntensity = s.cumulativeColorIntensity := by
  unfold handleStopTitration; split <;> rfl

lemma stop_results (s : LabState) :
    (handleStopTitration s).results = s.results := by
  unfold handleStopTitration; split <;> rfl

lemma stop_completedSteps (s : LabState) :
    (handleStopTitration s).completedSteps = s.completedSteps := by
  unfold handleStopTitration; split <;> rfl

/-- Every branch of handleStartTitration leaves cumulativeVolume alone. -/
lemma start_cumulativeVolume (s : LabState) :
    (handleStartTitration s).cumulativeVolume = s.cumulativeVolume := by
  simp only [handleStartTitration]
  cases hb : findEquip s "burette" <;> cases hf : findEquip s "conical_flask" <;>
    cases hm : findEquip s "magnetic_stirrer" <;> (repeat' split) <;>
    first
      | rfl
      | simp [markStep_cumulativeVolume, appendChem_cumulativeVolume]

/-- Every branch of handleStartTitration leaves cumulativeColorIntensity
alone. -/
lemma start_cumulativeColorIntensity (s : LabState) :
    (handleStartTitration s).cumulativeColorIntensity = s.cumulativeColorIntensity := by
  simp only [handleStartTitration]
  cases hb : findEquip s "burette" <;> cases hf : findEquip s "conical_flask" <;>
    cases hm : findEquip s "magnetic_stirrer" <;> (repeat' split) <;>
    first
      | rfl
      | simp [markStep_cumulativeColorIntensity, appendChem_cumulativeColorIntensity]

/-- handleStartTitration never shrinks the completed-step set. -/
lemma start_subset (s : LabState) :
    s.completedSteps ⊆ (handleStartTitration s).completedSteps := by
  simp only [handleStartTitration]
  cases hb : findEquip s "burette" <;> cases hf : findEquip s "conical_flask" <;>
    cases hm : findEquip s "magnetic_stirrer" <;> (repeat' split)
  all_goals
    first
      | exact Finset.Subset.refl _
      | exact subset_markStep _ _ _ _ (Finset.Subset.refl _)

/-- A passing start guard yields the burette and flask instances and the
naoh-loaded fact. -/
lemma startOk_elim (s : LabState) (h : startOk s = true) :
    ∃ b f, findEquip s "burette" = some b ∧ findEquip s "conical_flask" = some f ∧
      b.chemicals.any (fun c => c.id == "naoh") = true := by
  unfold startOk at h
  cases hb : findEquip s "burette" <;> cases hf : findEquip s "conical_flask" <;>
    rw [hb, hf] at h
  · exact Bool.noConfusion h
  · exact Bool.noConfusion h
  · exact Bool.noConfusion h
  · exact ⟨_, _, rfl, rfl, h⟩

/-- When the guard passes, handleStartTitration raises the Titrating flag. -/
lemma start_isTitrating_of (s : LabState) (h : startOk s = true) :
    (handleStartTitration s).isTitrating = true := by
  obtain ⟨b, f, hb, hf, hn⟩ := startOk_elim s h
  simp only [handleStartTitration]
  rw [hb, hf]
  simp only [hn, Bool.true_eq_false, if_false]
  cases hm : findEquip s "magnetic_stirrer" <;> (repeat' split) <;>
    first
      | rfl
      | simp [markStep_isTitrating, appendChem_isTitrating]

/-- When the guard passes, handleStartTitration starts exactly one more
animation loop. -/
lemma start_activeLoops_of (s : LabState) (h : startOk s = true) :
    (handleStartTitration s).activeLoops = s.activeLoops + 1 := by
  obtain ⟨b, f, hb, hf, hn⟩ := startOk_elim s h
  simp only [handleStartTitration]
  rw [hb, hf]
  simp only [hn, Bool.true_eq_false, if_false]
  cases hm : findEquip s "magnetic_stirrer" <;> (repeat' split) <;>
    first
      | rfl
      | simp [markStep_activeLoops, appendChem_activeLoops]

/-- When the guard passes, handleStartTitration appends exactly the
analysis-started record to the results log. -/
lemma start_results_of (s : LabState) (h : startOk s = true) :
    (handleStartTitration s).results = s.results ++ [ResultKind.titrationStart] := by
  obtain ⟨b, f, hb, hf, hn⟩ := startOk_elim s h
  simp only [handleStartTitration]
  rw [hb, hf]
  simp only [hn, Bool.true_eq_false, if_false]
  cases hm : findEquip s "magnetic_stirrer" <;> (repeat' split) <;>
    first
      | rfl
      | simp [markStep_results, appendChem_results]

/-- When the guard fails, handleStartTitration only shows the warning
toast. -/
lemma start_fail (s : LabState) (h : startOk s = false) :
    handleStartTitration s = { s with toasts := s.toasts + 1 } := by
  simp only [startOk] at h
  simp only [handleStartTitration]
  cases hb : findEquip s "burette" <;> cases hf : findEquip s "conical_flask" <;>
    rw [hb, hf] at h <;>
    first
      | rfl
      | simp_all

lemma frame_cumulativeVolume (snap : LabState) (p : ℚ) (live : LabState) :
    (animateFrame snap p live).cumulativeVolume = live.cumulativeVolume := by
  simp only [animateFrame]
  split <;> simp [markStep_cumulativeVolume]

lemma frame_cumulativeColorIntensity (snap : LabState) (p : ℚ) (live : LabState) :
    (animateFrame snap p live).cumulativeColorIntensity =
      live.cumulativeColorIntensity := by
  simp only [animateFrame]
  split <;> simp [markStep_cumulativeColorIntensity]

lemma frame_results (snap : LabState) (p : ℚ) (live : LabState) :
    (animateFrame snap p live).results = live.results := by
  simp only [animateFrame]
  split <;> simp [markStep_results]

lemma frame_isTitrating (snap : LabState) (p : ℚ) (live : LabState) :
    (animateFrame snap p live).isTitrating = live.isTitrating := by
  simp only [animateFrame]
  split <;> simp [markStep_isTitrating]

lemma frame_equipment (snap : LabState) (p : ℚ) (live : LabState) :
    (animateFrame snap p live).equipment = live.equipment.map (framePos p) := by
  simp only [animateFrame]
  split <;> simp [markStep_equipment]

lemma frame_subset (snap : LabState) (p : ℚ) (live : LabState) :
    live.completedSteps ⊆ (animateFrame snap p live).completedSteps := by
  simp only [animateFrame]
  split
  · exact subset_markStep _ _ _ _ (Finset.Subset.refl _)
  · exact Finset.Subset.refl _

/-- framePos keeps the equipment id. -/
lemma framePos_id (p : ℚ) (pos : EquipPos) : (framePos p pos).id = pos.id := by
  unfold framePos; split <;> rfl

/-- frameChem keeps the chemical id. -/
lemma frameChem_id (p : ℚ) (c : ChemQ) : (frameChem p c).id = c.id := by
  unfold frameChem; split <;> rfl

/-- The animation frame's flask update does not change which apparatus and
chemical ids are present, hence leaves the start guard unchanged. -/
lemma frame_startOk (snap : LabState) (p : ℚ) (live : LabState) :
    startOk (animateFrame snap p live) = startOk live := by
  simp only [startOk, findEquip]
  rw [frame_equipment, List.find?_map, List.find?_map]
  simp only [Function.comp_def, framePos_id]
  cases h1 : live.equipment.find? (fun pos => pos.id == "burette") <;>
    cases h2 : live.equipment.find? (fun pos => pos.id == "conical_flask") <;>
    simp only [Option.map_none', Option.map_some']
  unfold framePos
  split
  · simp [List.any_map, Function.comp_def, frameChem_id]
  · rfl

lemma settle_skip (snap : LabState) (cv ci : ℚ) (live : LabState)
    (h : snap.isTitrating = false) : cycleSettle snap cv ci live = live := by
  unfold cycleSettle; simp [h]

lemma settle_completedSteps (snap : LabState) (cv ci : ℚ) (live : LabState) :
    (cycleSettle snap cv ci live).completedSteps = live.completedSteps := by
  unfold cycleSettle; split <;> rfl

lemma handleReaction_subset (snap : LabState) (chemicals : List ChemQ)
    (equipmentId : String) (live : LabState) :
    live.completedSteps ⊆ (handleReaction snap chemicals equipmentId live).completedSteps := by
  simp only [handleReaction]
  repeat' split
  all_goals
    first
      | exact Finset.Subset.refl _
      | exact subset_markStep _ _ _ _ (Finset.Subset.refl _)

lemma chemicalDrop_subset (cid eid : String) (a : ℚ) (s : LabState) :
    s.completedSteps ⊆ (handleChemicalDrop cid eid a s).completedSteps := by
  simp only [handleChemicalDrop]
  repeat' split
  all_goals
    first
      | exact Finset.Subset.refl _
      | exact subset_markStep _ _ _ _ (Finset.Subset.refl _)
      | exact Finset.Subset.trans (markStep_subset s 2 _) (handleReaction_subset s _ _ _)
      | exact Finset.Subset.trans (subset_markStep s 2 _ _ (Finset.Subset.refl _)) (handleReaction_subset s _ _ _)
      | refine Finset.Subset.trans ?_ (handleReaction_subset s _ _ _) <;>
          first
            | exact Finset.Subset.refl _
            | exact subset_markStep _ _ _ _ (Finset.Subset.refl _)

lemma equipmentDrop_subset (id : String) (x y : ℚ) (s : LabState) :
    s.completedSteps ⊆ (handleEquipmentDrop id x y s).completedSteps := by
  simp only [handleEquipmentDrop]
  repeat' split
  all_goals
    first
      | exact Finset.Subset.refl _
      | exact subset_markStep _ _ _ _ (Finset.Subset.refl _)

/-- Stopping titration does not change the start guard (it never touches
the equipment list). -/
lemma stop_startOk (s : LabState) : startOk (handleStopTitration s) = startOk s := by
  unfold startOk findEquip
  rw [stop_equipment]

/-- A full cycle started from the Idle state: the settle guard reads the
snapshot's isTitrating (false), so the cycle reduces to the Start click
followed by the final animation frame. -/
lemma runFullCycle_skip (s : LabState) (hok : startOk s = true)
    (hid : s.isTitrating = false) :
    runFullCycle s = animateFrame s 1 (handleStartTitration s) := by
  unfold runFullCycle
  rw [hok, if_pos rfl, settle_skip _ _ _ _ hid]

/-! Claim theorems. -/

/-- C1 counterexample: in the Titrating state with both apparatus placed and
naoh loaded, a direct second call to handleStartTitration is not a no-op: it
starts a second interleaved animation loop (activeLoops 1 to 2) and appends
another analysis record, because the source contains no Idle/Titrating
re-entrancy guard. -/
theorem C1_counterexample :
    titratingState.isTitrating = true ∧
    titratingState.activeLoops = 1 ∧
    (handleStartTitration titratingState).activeLoops = 2 ∧
    (handleStartTitration titratingState).results ≠ titratingState.results := by
  refine ⟨rfl, rfl, ?_, ?_⟩ <;> decide

/-- C1 (amended): while already Titrating, a second direct call to
handleStartTitration leaves cumulativeVolume and cumulativeColorIntensity
unchanged, but it is not guarded by the Idle/Titrating flag: whenever the
apparatus guard passes it starts one more interleaved animation loop; the
Start/Stop button cannot re-enter the loop, because while Titrating a click
dispatches handleStopTitration instead. -/
theorem C1_start_not_reentrant_guarded (s : LabState) (h : s.isTitrating = true) :
    (handleStartTitration s).cumulativeVolume = s.cumulativeVolume ∧
    (handleStartTitration s).cumulativeColorIntensity = s.cumulativeColorIntensity ∧
    (startOk s = true → (handleStartTitration s).activeLoops = s.activeLoops + 1) ∧
    titrationButton s = handleStopTitration s := by
  refine ⟨start_cumulativeVolume s, start_cumulativeColorIntensity s,
    fun hs => start_activeLoops_of s hs, ?_⟩
  unfold titrationButton
  rw [if_pos h]

/-- C1 witness: the amended statement evaluated in the Titrating state. -/
theorem C1_witness :
    titratingState.isTitrating = true ∧ startOk titratingState = true ∧
    (handleStartTitration titratingState).cumulativeVolume =
      titratingState.cumulativeVolume ∧
    (handleStartTitration titratingState).activeLoops =
      titratingState.activeLoops + 1 := by
  have h := C1_start_not_reentrant_guarded titratingState (by decide)
  exact ⟨by decide, by decide, h.1, h.2.2.1 (by decide)⟩

/-- C2 counterexample: with total volume 0 the pH/molarity computation is
not guarded: for hcl with amount 25 it returns molarity +Infinity (not the
claimed 0) and pH 0 (not the claimed neutral 7) — the division by zero
produces Infinity and the clamp maps the resulting -Infinity pH to 0.  The
log10 parameter is irrelevant here because the logarithm is only taken at
+Infinity. -/
theorem C2_counterexample :
    (calculateChemicalProperties (fun _ => 0) "hcl" 25 0).molarity = JSNum.inf ∧
    (calculateChemicalProperties (fun _ => 0) "hcl" 25 0).ph = JSNum.fin 0 ∧
    (calculateChemicalProperties (fun _ => 0) "hcl" 25 0).molarity ≠ JSNum.fin 0 ∧
    (calculateChemicalProperties (fun _ => 0) "hcl" 25 0).ph ≠ JSNum.fin 7 := by
  refine ⟨?_, ?_, ?_, ?_⟩ <;>
    simp +decide [calculateChemicalProperties, concentrationOf, JSNum.jdiv,
      JSNum.jmul, JSNum.jneg, JSNum.jlog10, JSNum.jmax, JSNum.jmin]

/-- C2 (amended): calculateChemicalProperties has no zero-total-volume
guard: for the acid with any positive amount and total volume 0, the
division by zero propagates, the returned molarity is +Infinity and the
clamped pH is 0 — not the neutral defaults pH 7 and molarity 0 the claim
asserts. -/
theorem C2_zero_volume_not_guarded (f : ℚ → ℚ) (amount : ℚ) (h : 0 < amount) :
    (calculateChemicalProperties f "hcl" amount 0).molarity = JSNum.inf ∧
    (calculateChemicalProperties f "hcl" amount 0).ph = JSNum.fin 0 := by
  have h10 : (0:ℚ) < 1/10 := by norm_num
  constructor <;>
    simp [calculateChemicalProperties, concentrationOf, JSNum.jdiv, JSNum.jmul,
      JSNum.jneg, JSNum.jlog10, JSNum.jmax, JSNum.jmin, h, h10]

/-- C2 witness: the amended statement evaluated at amount 25. -/
theorem C2_witness :
    0 < (25:ℚ) ∧
    (calculateChemicalProperties (fun _ => 1) "hcl" 25 0).molarity = JSNum.inf ∧
    (calculateChemicalProperties (fun _ => 1) "hcl" 25 0).ph = JSNum.fin 0 :=
  ⟨by norm_num, (C2_zero_volume_not_guarded (fun _ => 1) 25 (by norm_num)).1,
    (C2_zero_volume_not_guarded (fun _ => 1) 25 (by norm_num)).2⟩

/-- C3, the code evaluated at the failing input.  Two complete user-driven
titration cycles from the ready workbench (Start, full animation to clamped
progress 1, settle timeout; manual Stop; Start again, full animation,
settle) leave cumulativeVolume at its initial 5.0 and
cumulativeColorIntensity at 0 and append no cycle record at all, and the
first cycle leaves the Titrating flag stuck on: the settle guard reads the
stale isTitrating binding captured at the Start click (false), so the commit
block never runs.  The claim's committed +20.0 mL per cycle and the
over-titration flag after two cycles do not occur. -/
theorem C3_cycle_commit_never_runs :
    (runFullCycle readyState).isTitrating = true ∧
    (runFullCycle readyState).cumulativeVolume = 5 ∧
    (runFullCycle (handleStopTitration (runFullCycle readyState))).cumulativeVolume = 5 ∧
    (runFullCycle (handleStopTitration
      (runFullCycle readyState))).cumulativeColorIntensity = 0 ∧
    (runFullCycle (handleStopTitration (runFullCycle readyState))).results =
      [ResultKind.titrationStart, ResultKind.titrationStart] := by
  have h0 : startOk readyState = true := by decide
  have hrs : readyState.isTitrating = false := rfl
  have h1 := runFullCycle_skip readyState h0 hrs
  have h1ok : startOk (runFullCycle readyState) = true := by
    rw [h1, frame_startOk]
    decide
  have h2ok : startOk (handleStopTitration (runFullCycle readyState)) = true := by
    rw [stop_startOk]
    exact h1ok
  have h2 := runFullCycle_skip (handleStopTitration (runFullCycle readyState)) h2ok
    (stop_isTitrating _)
  refine ⟨?_, ?_, ?_, ?_, ?_⟩
  · rw [h1, frame_isTitrating, start_isTitrating_of readyState h0]
  · rw [h1, frame_cumulativeVolume, start_cumulativeVolume]
    rfl
  · rw [h2, frame_cumulativeVolume, start_cumulativeVolume, stop_cumulativeVolume,
      h1, frame_cumulativeVolume, start_cumulativeVolume]
    rfl
  · rw [h2, frame_cumulativeColorIntensity, start_cumulativeColorIntensity,
      stop_cumulativeColorIntensity, h1, frame_cumulativeColorIntensity,
      start_cumulativeColorIntensity]
    rfl
  · rw [h2, frame_results, start_results_of _ h2ok, stop_results,
      h1, frame_results, start_results_of _ h0]
    rfl

/-- C4: getMixedColor returns transparent for an empty chemical list, the
chemical's own colour when exactly one chemical is present, and for a
mixture of exactly hcl, naoh and phenolphthalein (any amounts) with
titrationColorProgress 0 the priority-table colour #FFB6C1 — the special
cases are decided before the weighted-average fallback. -/
theorem C4_mixed_color_priority :
    (∀ p : ℚ, getMixedColor [] p = "transparent") ∧
    (∀ (c : ChemQ) (p : ℚ), getMixedColor [c] p = c.color) ∧
    (∀ a1 a2 a3 : ℚ,
      getMixedColor
        [⟨"hcl", "Hydrochloric Acid", "#FFE135", a1, "0.1 M"⟩,
         ⟨"naoh", "Sodium Hydroxide", "#8B5A9B", a2, "0.1 M"⟩,
         ⟨"phenol", "Phenolphthalein", "#FFB6C1", a3, "Indicator"⟩] 0 = "#FFB6C1") := by
  refine ⟨fun p => rfl, fun c p => rfl, fun a1 a2 a3 => ?_⟩
  simp +decide [getMixedColor]

/-- C5: getSolutionHeight equals min(85, totalVolume/100*85) for every
chemical list; consequently it is non-decreasing in total volume and
saturates at exactly 85 for every total volume at least 100. -/
theorem C5_solution_height :
    (∀ chemicals, getSolutionHeight chemicals =
      min 85 (totalVolume chemicals / 100 * 85)) ∧
    (∀ c1 c2 : List ChemQ, totalVolume c1 ≤ totalVolume c2 →
      getSolutionHeight c1 ≤ getSolutionHeight c2) ∧
    (∀ chemicals, 100 ≤ totalVolume chemicals → getSolutionHeight chemicals = 85) := by
  refine ⟨fun _ => rfl, fun c1 c2 h => ?_, fun c h => ?_⟩
  · unfold getSolutionHeight
    exact min_le_min le_rfl (by linarith)
  · unfold getSolutionHeight
    exact min_eq_left (by linarith)

/-- C5 witness: monotonicity from the empty list to one 25 mL entry, and
saturation at a 120 mL entry. -/
theorem C5_witness :
    totalVolume [] ≤ totalVolume [inkChem] ∧
    getSolutionHeight [] ≤ getSolutionHeight [inkChem] ∧
    100 ≤ totalVolume [⟨"naoh", "Sodium Hydroxide", "#8B5A9B", 120, "0.1 M"⟩] ∧
    getSolutionHeight [⟨"naoh", "Sodium Hydroxide", "#8B5A9B", 120, "0.1 M"⟩] = 85 :=
  ⟨by norm_num [totalVolume, inkChem],
    C5_solution_height.2.1 _ _ (by norm_num [totalVolume, inkChem]),
    by norm_num [totalVolume],
    C5_solution_height.2.2 _ (by norm_num [totalVolume])⟩

/-- C6: for the Acid-Base experiment, markStepCompleted inserts the step
number iff it is not already present (an absent step is inserted with one
notification; a present step leaves the state entirely unchanged), so a
second identical call is the identity: the set holds the step exactly once
and no duplicate notification is emitted; and no modelled operation other
than the full reset ever removes a completed step. -/
theorem C6_step_tracker (s : LabState) (h : s.acidBase = true) :
    (∀ n, n ∉ s.completedSteps →
      (markStepCompleted s n s).completedSteps = insert n s.completedSteps ∧
      (markStepCompleted s n s).notifications = s.notifications ++ [n]) ∧
    (∀ n, n ∈ s.completedSteps → markStepCompleted s n s = s) ∧
    (3 ∈ (markStepCompleted s 3 s).completedSteps ∧
      markStepCompleted (markStepCompleted s 3 s) 3 (markStepCompleted s 3 s) =
        markStepCompleted s 3 s) ∧
    (∀ (op : LabOp) (t : LabState), op ≠ LabOp.reset →
      t.completedSteps ⊆ (applyOp op t).completedSteps) := by
  have hin : ∀ u : LabState, 3 ∈ u.completedSteps → markStepCompleted u 3 u = u := by
    intro u hu
    unfold markStepCompleted
    rw [if_neg]
    intro hc
    exact hc.2 hu
  refine ⟨fun n hn => ?_, fun n hn => ?_, ?_, fun op t hop => ?_⟩
  · unfold markStepCompleted
    rw [if_pos ⟨h, hn⟩]
    exact ⟨rfl, rfl⟩
  · unfold markStepCompleted
    rw [if_neg]
    intro hc
    exact hc.2 hn
  · by_cases h3 : 3 ∈ s.completedSteps
    · have he : markStepCompleted s 3 s = s := by
        unfold markStepCompleted
        rw [if_neg]
        intro hc
        exact hc.2 h3
      rw [he]
      exact ⟨h3, he⟩
    · have hmem : 3 ∈ (markStepCompleted s 3 s).completedSteps := by
        unfold markStepCompleted
        rw [if_pos ⟨h, h3⟩]
        exact Finset.mem_insert_self 3 _
      exact ⟨hmem, hin _ hmem⟩
  · cases op with
    | equipmentDrop id x y => exact equipmentDrop_subset id x y t
    | chemicalDrop cid eid a => exact chemicalDrop_subset cid eid a t
    | startTitration => exact start_subset t
    | stopTitration => simp [applyOp, stop_completedSteps]
    | button =>
      simp only [applyOp, titrationButton]
      split
      · simp [stop_completedSteps]
      · exact start_subset t
    | fullCycle =>
      simp only [applyOp, runFullCycle]
      split
      · rw [settle_completedSteps]
        exact Finset.Subset.trans (start_subset t) (frame_subset t 1 _)
      · exact start_subset t
    | markStep n => exact markStep_subset t n t
    | reset => exact absurd rfl hop

/-- C6 witness: the double call on step 3 from the ready state. -/
theorem C6_witness :
    readyState.acidBase = true ∧
    (markStepCompleted readyState 3 readyState).completedSteps =
      insert 3 readyState.completedSteps ∧
    markStepCompleted (markStepCompleted readyState 3 readyState) 3
        (markStepCompleted readyState 3 readyState) =
      markStepCompleted readyState 3 readyState := by
  have h := C6_step_tracker readyState rfl
  exact ⟨rfl, (h.1 3 (by decide)).1, h.2.2.1.2⟩

/-- C7: startTitration transitions Idle to Titrating only when both the
burette and the conical flask are on the workbench and the burette holds
naoh; whenever the guard fails the handler emits exactly one warning toast
and changes nothing else — equipment, cumulative values and the Idle flag
are untouched. -/
theorem C7_start_guard (s : LabState) (h : startOk s = false) :
    handleStartTitration s = { s with toasts := s.toasts + 1 } ∧
    (handleStartTitration s).equipment = s.equipment ∧
    (handleStartTitration s).cumulativeVolume = s.cumulativeVolume ∧
    (handleStartTitration s).cumulativeColorIntensity = s.cumulativeColorIntensity ∧
    (handleStartTitration s).isTitrating = s.isTitrating ∧
    (∀ t : LabState, startOk t = true → (handleStartTitration t).isTitrating = true) := by
  have he := start_fail s h
  refine ⟨he, ?_, ?_, ?_, ?_, fun t ht => start_isTitrating_of t ht⟩ <;> rw [he]

/-- C7 witness: the guard statement evaluated at a workbench missing the
conical flask. -/
theorem C7_witness :
    startOk missingFlaskState = false ∧
    handleStartTitration missingFlaskState =
      { missingFlaskState with toasts := missingFlaskState.toasts + 1 } :=
  ⟨by decide, (C7_start_guard missingFlaskState (by decide)).1⟩

/-- C8: resetExperiment restores cumulativeVolume to 5.0,
cumulativeColorIntensity to 0 and the completed-step set to empty, from any
state whatsoever, in particular after any number of titration cycles. -/
theorem C8_reset_restores (s : LabState) :
    (resetExperiment s).cumulativeVolume = 5 ∧
    (resetExperiment s).cumulativeColorIntensity = 0 ∧
    (resetExperiment s).completedSteps = ∅ :=
  ⟨rfl, rfl, rfl⟩

/-- C9: the weighted-average fallback of getMixedColor.  In general, for at
least two chemicals, no special-case id match, parseable colours and a
nonzero total amount, getMixedColor equals weightedAverageColor, the
amount-weighted per-channel RGB average rounded to integers, stated from the
spec's words; in particular #000000 (amount 10) with #FFFFFF (amount 10)
mixes to rgb(128, 128, 128). -/
theorem C9_weighted_average_fallback (chemicals : List ChemQ) (p : ℚ)
    (hlen : 2 ≤ chemicals.length)
    (h1 : ¬("hcl" ∈ chemicals.map ChemQ.id ∧ "naoh" ∈ chemicals.map ChemQ.id))
    (h2 : ¬("phenol" ∈ chemicals.map ChemQ.id ∧ "naoh" ∈ chemicals.map ChemQ.id))
    (h3 : ¬("hcl" ∈ chemicals.map ChemQ.id ∧ "phenol" ∈ chemicals.map ChemQ.id))
    (hfin : ∀ c ∈ chemicals, (colorChannel c.color 0).isFin = true ∧
      (colorChannel c.color 2).isFin = true ∧ (colorChannel c.color 4).isFin = true)
    (htot : totalVolume chemicals ≠ 0) :
    getMixedColor chemicals p = weightedAverageColor chemicals ∧
    getMixedColor [inkChem, milkChem] p = "rgb(128, 128, 128)" := by
  constructor
  · rcases chemicals with _ | ⟨a, _ | ⟨b, u⟩⟩
    · simp at hlen
    · simp at hlen
    · have hfold := foldl_mixStep_fin (a :: b :: u) hfin 0 0 0 0
      simp only [getMixedColor]
      rw [if_neg h1, if_neg h2, if_neg (fun hc => h3 ⟨hc.1, hc.2.1⟩)]
      unfold mixFold
      rw [hfold]
      simp only [zero_add]
      rw [if_neg htot]
      simp only [JSNum.jdiv]
      rw [if_pos htot, if_pos htot, if_pos htot]
      rfl
  · simp +decide [getMixedColor, mixFold, mixStep, colorChannel, stripHash,
      parseIntHex2, hexDigitVal, JSNum.jadd, JSNum.jmul, JSNum.jdiv, channelStr,
      jround, inkChem, milkChem]
    norm_num
    rfl

/-- C9 witness: the general fallback statement instantiated at the
ink/milk pair. -/
theorem C9_witness :
    totalVolume [inkChem, milkChem] ≠ 0 ∧
    getMixedColor [inkChem, milkChem] 0 = weightedAverageColor [inkChem, milkChem] := by
  have h := C9_weighted_average_fallback [inkChem, milkChem] 0 (by decide)
    (by decide) (by decide) (by decide) (by decide)
    (by norm_num [totalVolume, inkChem, milkChem])
  exact ⟨by norm_num [totalVolume, inkChem, milkChem], h.1⟩

/-- C10: for every chemical id, every log10 interpretation, every
nonnegative amount and every strictly positive total volume, the pH
returned by calculateChemicalProperties is a finite rational clamped into
the closed interval from 0 to 14 by Math.max(0, Math.min(14, ph)). -/
theorem C10_ph_in_range (f : ℚ → ℚ) (id : String) (amount totalVolume : ℚ)
    (ha : 0 ≤ amount) (hv : 0 < totalVolume) :
    ∃ q : ℚ, (calculateChemicalProperties f id amount totalVolume).ph = JSNum.fin q ∧
      0 ≤ q ∧ q ≤ 14 := by
  have hvne : totalVolume ≠ 0 := ne_of_gt hv
  have hcnn : 0 ≤ concentrationOf id := by
    unfold concentrationOf
    split
    · norm_num
    · split <;> norm_num
  unfold calculateChemicalProperties
  simp only [JSNum.jdiv, if_pos hvne, JSNum.jmul]
  set m := concentrationOf id * (amount / totalVolume) with hmdef
  have hmnn : 0 ≤ m := mul_nonneg hcnn (div_nonneg ha hv.le)
  rcases eq_or_lt_of_le hmnn with hm0 | hmpos
  · by_cases hid1 : id = "hcl"
    · refine ⟨14, ?_, by norm_num, by norm_num⟩
      simp [hid1, JSNum.jlog10, ← hm0, JSNum.jneg, JSNum.jmin, JSNum.jmax]
    · by_cases hid2 : id = "naoh"
      · refine ⟨0, ?_, by norm_num, by norm_num⟩
        simp [hid1, hid2, JSNum.jlog10, ← hm0, JSNum.jneg, JSNum.jsub,
          JSNum.jmin, JSNum.jmax]
      · refine ⟨7, ?_, by norm_num, by norm_num⟩
        simp [hid1, hid2, JSNum.jmin, JSNum.jmax]
        norm_num
  · by_cases hid1 : id = "hcl"
    · refine ⟨max 0 (min 14 (-(f m))), ?_, le_max_left _ _,
        max_le (by norm_num) (min_le_left _ _)⟩
      simp [hid1, JSNum.jlog10, hmpos, JSNum.jneg, JSNum.jmin, JSNum.jmax]
    · by_cases hid2 : id = "naoh"
      · refine ⟨max 0 (min 14 (14 - -(f m))), ?_, le_max_left _ _,
          max_le (by norm_num) (min_le_left _ _)⟩
        simp [hid1, hid2, JSNum.jlog10, hmpos, JSNum.jneg, JSNum.jsub,
          JSNum.jmin, JSNum.jmax]
      · refine ⟨7, ?_, by norm_num, by norm_num⟩
        simp [hid1, hid2, JSNum.jmin, JSNum.jmax]
        norm_num

/-- C10 witness: the clamp evaluated for hcl, amount 25, total volume 30. -/
theorem C10_witness :
    0 ≤ (25:ℚ) ∧ 0 < (30:ℚ) ∧
    ∃ q : ℚ, (calculateChemicalProperties (fun _ => 2) "hcl" 25 30).ph = JSNum.fin q ∧
      0 ≤ q ∧ q ≤ 14 :=
  ⟨by norm_num, by norm_num,
    C10_ph_in_range (fun _ => 2) "hcl" 25 30 (by norm_num) (by norm_num)⟩

end Titration
